import Mathlib

/-!
Verification of the qbit torrent-daemon HTTP client (src/lib.rs).

The development shallowly embeds the authenticated-request pipeline: the
credential store (a set-once session-cookie cell), the login exchange, the
per-call request construction, the status-code classifier with per-call
override tables, and the query-string argument codec.  Network exchanges are
modelled as explicit inputs (the transport is an external collaborator): each
call receives the outcome the transport would produce for the login exchange
and for the call's own dispatch.

The repository's `ext` and `model` modules are not part of the given sources;
the handful of items from them that the pipeline uses (the status mapper, the
cookie extractor, the torrent-not-found override table, the hash-set argument)
are modelled from the specification and marked as such in their doc comments.
-/

/-- Domain errors defined and returned by the API with a status code
(lib.rs `ApiError`). -/
inductive ApiError
  | IpBanned
  | NotLoggedIn
  | TorrentNotFound
deriving DecidableEq, Repr

/-- Error taxonomy of the client (lib.rs `Error`).  The opaque transport error
payload is modelled as a string. -/
inductive Error
  | HttpError (explain : String)
  | BadResponse (explain : String)
  | UnknownHttpCode (code : Nat)
  | ApiError (e : ApiError)
deriving DecidableEq, Repr

/-- Login credentials (a username/password pair), from the model module's
`Credential` as used by lib.rs. -/
structure Credential where
  username : String
  password : String
deriving DecidableEq, Repr

/-- An HTTP response as the pipeline observes it: status code, the session
cookie exposed in the headers (relevant to the login exchange only), and the
body text. -/
structure Response where
  status : Nat
  sidCookie : Option String
  body : String
deriving DecidableEq, Repr

/-- Outcome of one network exchange: a transport-level failure or a response.
This is the input the external transport supplies to a call. -/
inductive Net
  | fail (explain : String)
  | ok (r : Response)
deriving DecidableEq, Repr

/-- A parsed absolute URL, modelled minimally from the url crate (an external
dependency): we keep the serialized text and whether the URL is one of the
cannot-be-a-base forms (such as mailto:), which the crate documents as the
forms that reject relative joins. -/
structure Url where
  serialization : String
  cannotBeABase : Bool
deriving DecidableEq, Repr

/-- Resolution of a relative path against a base URL's text: the base is kept
up to and including its last slash and the relative path is appended. -/
def resolveRel (base rel : String) : String :=
  base.dropRightWhile (fun ch => ch ≠ '/') ++ rel

/-- Url::join with a relative-path reference, modelled from the url crate's
documentation: joining fails exactly when the base cannot be a base, and the
result of a successful join can itself be a base. -/
def Url.join (u : Url) (path : String) : Option Url :=
  if u.cannotBeABase then none
  else some ⟨resolveRel u.serialization path, false⟩

/-- State of a client (lib.rs `Api`): endpoint, credential, and the set-once
session-cookie cell (`OnceLock<String>`, modelled as an option). -/
structure Api where
  endpoint : Url
  credential : Credential
  cookie : Option String
deriving DecidableEq, Repr

/-- Rust's `OnceLock::set` with its result dropped, as on lib.rs line 684:
setting an already-initialized cell leaves the stored value unchanged and the
error result is ignored. -/
def onceSet (cell : Option String) (v : String) : Option String :=
  match cell with
  | none => some v
  | some w => some w

/-- Api::new (lib.rs 41-48): stores the endpoint and credential, with the
cookie cell empty.  No validation of any kind is performed. -/
def Api.new (endpoint : Url) (credential : Credential) : Api :=
  { endpoint := endpoint, credential := credential, cookie := none }

/-- Api::new_with_cookie (lib.rs 50-60): stores the endpoint, an empty
credential, and a cookie cell already holding the supplied session cookie. -/
def Api.new_with_cookie (endpoint : Url) (cookie : String) : Api :=
  { endpoint := endpoint
    credential := { username := "", password := "" }
    cookie := some cookie }

/-- Api::url (lib.rs 660-666): joins the fixed version prefix onto the
endpoint, then the per-call path.  The unwrap and the expect panic are
modelled as the value none. -/
def Api.url (api : Api) (path : String) : Option Url :=
  (api.endpoint.join "api/v2/").bind (fun u => u.join path)

/-- Status-code membership in the 2xx success class. -/
def is2xx (code : Nat) : Bool :=
  decide (200 ≤ code) && decide (code < 300)

/-- Table used by the login exchange's status mapping (the closure on lib.rs
677-680): 403 is the IP-banned domain error. -/
def loginStatusTable (code : Nat) : Option Error :=
  if code = 403 then some (Error.ApiError ApiError.IpBanned) else none

/-- Global default table for every non-login call (the closure on lib.rs
722-725): 403 is the not-logged-in domain error. -/
def defaultStatusTable (code : Nat) : Option Error :=
  if code = 403 then some (Error.ApiError ApiError.NotLoggedIn) else none

/-- Modelled from the spec: the TORRENT_NOT_FOUND override table from the
missing ext module, applied by the hash-scoped endpoints — status 404 on such
a call classifies as the torrent-not-found domain error. -/
def TORRENT_NOT_FOUND (code : Nat) : Option Error :=
  if code = 404 then some (Error.ApiError ApiError.TorrentNotFound) else none

/-- Empty override table, for calls carrying no call-specific override. -/
def noOverride (_code : Nat) : Option Error := none

/-- Modelled from the spec: ResponseExt::map_status from the missing ext
module (spec section 4.3): a 2xx status never classifies as an error; a
non-2xx status mapped by the table classifies as the mapped error; any other
non-2xx status becomes the unknown-status-code error carrying the raw code. -/
def mapStatus (table : Nat → Option Error) (status : Nat) : Option Error :=
  if is2xx status then none
  else
    match table status with
    | some e => some e
    | none => some (Error.UnknownHttpCode status)

/-- Modelled from the spec: overlay of the call-specific override table on the
global default (spec section 4.3): the override is consulted first and its
mapping wins; otherwise the default table is consulted. -/
def overlay (override fallback : Nat → Option Error) : Nat → Option Error :=
  fun code =>
    match override code with
    | some e => some e
    | none => fallback code

/-- Full per-call status classification (spec section 4.3): the call's
override table overlaid on the global default, with the 2xx pass and the
unknown-status fallback of the status mapper. -/
def classify (override fallback : Nat → Option Error) (status : Nat) : Option Error :=
  mapStatus (overlay override fallback) status

/-- Modelled from the spec: the Cookie extractor from the missing ext module —
the login response must expose the session token via the session-cookie
header, and extraction by name fails with an error when it is absent. -/
def extractCookie (r : Response) : Except Error String :=
  match r.sidCookie with
  | some c => Except.ok c
  | none => Except.error (Error.BadResponse "No cookie found in login response")

/-- HTTP method of a built request. -/
inductive Method
  | get
  | post
deriving DecidableEq, Repr

/-- A fully-built outbound request: method, relative path, serialized query
pairs, and the cookie header when one is attached. -/
structure BuiltReq where
  method : Method
  path : String
  query : List (String × String)
  cookie : Option String
deriving DecidableEq, Repr

/-- Outcome of Api::login: the state after the call, the login request it
dispatched (none when the exchange was skipped), and its result. -/
structure LoginResult where
  state : Api
  sent : Option BuiltReq
  result : Except Error Unit
deriving Repr

/-- Api::login (lib.rs 668-692): when no cookie is cached, send the login
request with the credentials as query parameters, classify the status with
the login table (403 is IP-banned), extract the session cookie, and install
it in the set-once cell, dropping the set result; when a cookie is already
cached, skip the exchange entirely.  On any failure the state is unchanged. -/
def Api.login (api : Api) (net : Net) : LoginResult :=
  match api.cookie with
  | some _ => { state := api, sent := none, result := Except.ok () }
  | none =>
    let req : BuiltReq :=
      { method := Method.get
        path := "auth/login"
        query := [("username", api.credential.username),
                  ("password", api.credential.password)]
        cookie := none }
    match net with
    | Net.fail e =>
        { state := api, sent := some req, result := Except.error (Error.HttpError e) }
    | Net.ok r =>
        match mapStatus loginStatusTable r.status with
        | some e => { state := api, sent := some req, result := Except.error e }
        | none =>
            match extractCookie r with
            | Except.error e =>
                { state := api, sent := some req, result := Except.error e }
            | Except.ok c =>
                { state := { api with cookie := onceSet api.cookie c }
                  sent := some req
                  result := Except.ok () }

/-- Outcome of Api::request: the state after the call, the login request
dispatched by the login step (if any), the target request dispatched (if the
call got that far), and the call's result, where none stands for the panic of
the expect on lib.rs line 706. -/
structure RequestResult where
  state : Api
  loginSent : Option BuiltReq
  sent : Option BuiltReq
  result : Option (Except Error Response)
deriving Repr

/-- Api::request (lib.rs 694-727): run login first and fail the whole call
with its error if it fails; read the cached cookie, whose absence after a
successful login is the expect panic (modelled as the result none); build the
target request with the cookie header and the serialized query attached;
dispatch it; classify the response status with the call's override table
overlaid on the global default (the overlay order is modelled from spec
section 4.3, the composition living in the missing ext module). -/
def Api.request (api : Api) (method : Method) (path : String)
    (query : List (String × String)) (table : Nat → Option Error)
    (lNet cNet : Net) : RequestResult :=
  let lr := api.login lNet
  match lr.result with
  | Except.error e =>
      { state := lr.state, loginSent := lr.sent, sent := none
        result := some (Except.error e) }
  | Except.ok _ =>
      match lr.state.cookie with
      | none =>
          { state := lr.state, loginSent := lr.sent, sent := none, result := none }
      | some c =>
          let req : BuiltReq :=
            { method := method, path := path, query := query, cookie := some c }
          match cNet with
          | Net.fail e =>
              { state := lr.state, loginSent := lr.sent, sent := some req
                result := some (Except.error (Error.HttpError e)) }
          | Net.ok r =>
              match classify table defaultStatusTable r.status with
              | some e =>
                  { state := lr.state, loginSent := lr.sent, sent := some req
                    result := some (Except.error e) }
              | none =>
                  { state := lr.state, loginSent := lr.sent, sent := some req
                    result := some (Except.ok r) }

/-- Api::logout (lib.rs 66-68): a plain GET of auth/logout with no query, no
override table, and the response discarded.  It does not touch the cookie
cell. -/
def Api.logout (api : Api) (lNet cNet : Net) : RequestResult :=
  Api.request api Method.get "auth/logout" [] noOverride lNet cNet

/-- Query serialization of the HashArg record from the model module (used by
the hash-scoped GET endpoints): the single key hash. -/
def hashArgQuery (hash : String) : List (String × String) :=
  [("hash", hash)]

/-- Query serialization of get_peer_logs' Arg record (lib.rs 133-137), whose
single field carries skip_serializing_none: an absent last_known_id emits no
key; a present one emits its decimal rendering. -/
def getPeerLogsQuery (last_known_id : Option Int) : List (String × String) :=
  match last_known_id with
  | none => []
  | some i => [("last_known_id", toString i)]

/-- Query serialization of sync's Arg record (lib.rs 152-156), whose single
field carries skip_serializing_none: an absent rid emits no key. -/
def syncQuery (rid : Option Int) : List (String × String) :=
  match rid with
  | none => []
  | some i => [("rid", toString i)]

/-- Query serialization of get_torrent_peers' Arg record (lib.rs 170-174):
the hash always, then rid; the query serializer of the transport's set_query
omits an Option field that is None (documented serde behavior for
urlencoded/query serializers), so an absent rid emits no key. -/
def torrentPeersQuery (hash : String) (rid : Option Int) : List (String × String) :=
  ("hash", hash) ::
    (match rid with
     | none => []
     | some i => [("rid", toString i)])

/-- Joining of a delimiter-separated list, the Display of the model module's
Sep: the items joined by the separator. -/
def sepJoin (sep : String) (items : List String) : String :=
  String.intercalate sep items

/-- Query serialization of get_torrent_contents' Arg record (lib.rs 332-337):
the hash always, then indexes with an explicit skip_serializing_if on None; a
present indexes value is the bar-joined list. -/
def torrentContentsQuery (hash : String) (indexes : Option (List String)) :
    List (String × String) :=
  ("hash", hash) ::
    (match indexes with
     | none => []
     | some l => [("indexes", sepJoin "|" l)])

/-- Api::get_peer_logs (lib.rs 129-149): GET log/peers with the optional
last_known_id query and no override table. -/
def Api.get_peer_logs (api : Api) (last_known_id : Option Int)
    (lNet cNet : Net) : RequestResult :=
  Api.request api Method.get "log/peers" (getPeerLogsQuery last_known_id)
    noOverride lNet cNet

/-- Api::sync (lib.rs 151-163): GET sync/maindata with the optional rid query
and no override table. -/
def Api.sync (api : Api) (rid : Option Int) (lNet cNet : Net) : RequestResult :=
  Api.request api Method.get "sync/maindata" (syncQuery rid) noOverride lNet cNet

/-- Api::get_torrent_peers (lib.rs 165-188): GET sync/torrentPeers with the
hash and optional rid query, carrying the TORRENT_NOT_FOUND override. -/
def Api.get_torrent_peers (api : Api) (hash : String) (rid : Option Int)
    (lNet cNet : Net) : RequestResult :=
  Api.request api Method.get "sync/torrentPeers" (torrentPeersQuery hash rid)
    TORRENT_NOT_FOUND lNet cNet

/-- Api::get_torrent_properties (lib.rs 291-301): GET torrents/properties
with the hash query, carrying the TORRENT_NOT_FOUND override. -/
def Api.get_torrent_properties (api : Api) (hash : String)
    (lNet cNet : Net) : RequestResult :=
  Api.request api Method.get "torrents/properties" (hashArgQuery hash)
    TORRENT_NOT_FOUND lNet cNet

/-- Api::get_torrent_contents (lib.rs 327-351): GET torrents/files with the
hash and optional bar-joined indexes query, carrying the TORRENT_NOT_FOUND
override. -/
def Api.get_torrent_contents (api : Api) (hash : String)
    (indexes : Option (List String)) (lNet cNet : Net) : RequestResult :=
  Api.request api Method.get "torrents/files" (torrentContentsQuery hash indexes)
    TORRENT_NOT_FOUND lNet cNet

/-- Decoding of the speedLimitsMode response body (lib.rs 204-210): the
string 0 is false, the string 1 is true, and every other body is the
bad-response error with the call's fixed explanation. -/
def decodeSpeedLimitsMode (s : String) : Except Error Bool :=
  if s = "0" then Except.ok false
  else if s = "1" then Except.ok true
  else Except.error (Error.BadResponse
    "Received non-number response body on `transfer/speedLimitsMode`")

/-- Api::get_speed_limits_mode (lib.rs 198-211): GET
transfer/speedLimitsMode with no query and no override, then decode the body
string; the first component is the state after the call, the second the
result, where none stands for the request pipeline's expect panic. -/
def Api.get_speed_limits_mode (api : Api) (lNet cNet : Net) :
    Api × Option (Except Error Bool) :=
  let rr := Api.request api Method.get "transfer/speedLimitsMode" [] noOverride lNet cNet
  (rr.state,
   rr.result.map (fun res => res.bind (fun r => decodeSpeedLimitsMode r.body)))

/-- Outcome of invoking an endpoint method, distinguishing a panic from a
dispatched request with a result. -/
inductive StubOutcome (α : Type)
  | panics
  | sends (req : BuiltReq) (result : Except Error α)

/-- Modelled from the spec: the hash-set argument from the missing model
module — either an explicit list of content hashes or the sentinel meaning
all known items, representable distinctly from the empty list. -/
inductive Hashes
  | hashes (l : List String)
  | all
deriving DecidableEq, Repr

/-- Modelled from the spec: the file-priority enumeration from the missing
model module; its inhabitants are out of scope, one is enough to invoke the
stub. -/
inductive Priority
  | normal
deriving DecidableEq, Repr

/-- Modelled from the spec: the torrent-source argument record from the
missing model module; its fields are out of scope. -/
structure TorrentSource
deriving DecidableEq, Repr

/-- Modelled from the spec: the add-torrent argument record from the missing
model module; its fields are out of scope. -/
structure AddTorrentArg
deriving DecidableEq, Repr

/-- Modelled from the spec: the shared-limit argument record from the missing
model module; its fields are out of scope. -/
structure SetTorrentSharedLimitArg
deriving DecidableEq, Repr

/-- Modelled from the spec: the torrent record from the missing model module;
its fields are out of scope. -/
structure Torrent
deriving DecidableEq, Repr

/-- Modelled from the spec: the category record from the missing model
module; its fields are out of scope. -/
structure Category
deriving DecidableEq, Repr

/-- Api::recheck_torrents (lib.rs 417-419): the body is todo, which panics
unconditionally for every input. -/
def Api.recheck_torrents (_api : Api) (_hashes : Hashes) : StubOutcome Unit :=
  StubOutcome.panics

/-- Api::reannounce_torrents (lib.rs 421-423): the body is todo, which panics
unconditionally for every input. -/
def Api.reannounce_torrents (_api : Api) (_hashes : Hashes) : StubOutcome Unit :=
  StubOutcome.panics

/-- Api::add_torrent (lib.rs 425-431): the body is todo, which panics
unconditionally for every input. -/
def Api.add_torrent (_api : Api) (_src : TorrentSource) (_arg : AddTorrentArg) :
    StubOutcome (List Torrent) :=
  StubOutcome.panics

/-- Api::add_trackers (lib.rs 433-439): the body is todo, which panics
unconditionally for every input. -/
def Api.add_trackers (_api : Api) (_hash : String) (_urls : List String) :
    StubOutcome Unit :=
  StubOutcome.panics

/-- Api::edit_trackers (lib.rs 441-448): the body is todo, which panics
unconditionally for every input. -/
def Api.edit_trackers (_api : Api) (_hash : String) (_origUrl _newUrl : Url) :
    StubOutcome Unit :=
  StubOutcome.panics

/-- Api::remove_trackers (lib.rs 450-456): the body is todo, which panics
unconditionally for every input. -/
def Api.remove_trackers (_api : Api) (_hash _url : String) : StubOutcome Unit :=
  StubOutcome.panics

/-- Api::add_peers (lib.rs 458-464): the body is todo, which panics
unconditionally for every input. -/
def Api.add_peers (_api : Api) (_hash : String) (_peers : List String) :
    StubOutcome Unit :=
  StubOutcome.panics

/-- Api::increase_priority (lib.rs 466-468): the body is todo, which panics
unconditionally for every input. -/
def Api.increase_priority (_api : Api) (_hashes : Hashes) : StubOutcome Unit :=
  StubOutcome.panics

/-- Api::decrease_priority (lib.rs 470-472): the body is todo, which panics
unconditionally for every input. -/
def Api.decrease_priority (_api : Api) (_hashes : Hashes) : StubOutcome Unit :=
  StubOutcome.panics

/-- Api::maximal_priority (lib.rs 474-476): the body is todo, which panics
unconditionally for every input. -/
def Api.maximal_priority (_api : Api) (_hashes : Hashes) : StubOutcome Unit :=
  StubOutcome.panics

/-- Api::minimal_priority (lib.rs 478-480): the body is todo, which panics
unconditionally for every input. -/
def Api.minimal_priority (_api : Api) (_hashes : Hashes) : StubOutcome Unit :=
  StubOutcome.panics

/-- Api::set_file_priority (lib.rs 482-489): the body is todo, which panics
unconditionally for every input. -/
def Api.set_file_priority (_api : Api) (_hash : String) (_indexes : List Int)
    (_priority : Priority) : StubOutcome Unit :=
  StubOutcome.panics

/-- Api::get_torrent_download_limit (lib.rs 491-496): the body is todo, which
panics unconditionally for every input. -/
def Api.get_torrent_download_limit (_api : Api) (_hashes : Hashes) :
    StubOutcome (List (String × Nat)) :=
  StubOutcome.panics

/-- Api::set_torrent_download_limit (lib.rs 498-504): the body is todo, which
panics unconditionally for every input. -/
def Api.set_torrent_download_limit (_api : Api) (_hashes : Hashes) (_limit : Nat) :
    StubOutcome Unit :=
  StubOutcome.panics

/-- Api::set_torrent_shared_limit (lib.rs 506-508): the body is todo, which
panics unconditionally for every input. -/
def Api.set_torrent_shared_limit (_api : Api) (_arg : SetTorrentSharedLimitArg) :
    StubOutcome Unit :=
  StubOutcome.panics

/-- Api::get_torrent_upload_limit (lib.rs 510-515): the body is todo, which
panics unconditionally for every input. -/
def Api.get_torrent_upload_limit (_api : Api) (_hashes : Hashes) :
    StubOutcome (List (String × Nat)) :=
  StubOutcome.panics

/-- Api::set_torrent_upload_limit (lib.rs 517-523): the body is todo, which
panics unconditionally for every input. -/
def Api.set_torrent_upload_limit (_api : Api) (_hashes : Hashes) (_limit : Nat) :
    StubOutcome Unit :=
  StubOutcome.panics

/-- Api::set_torrent_location (lib.rs 525-531): the body is todo, which panics
unconditionally for every input. -/
def Api.set_torrent_location (_api : Api) (_hashes : Hashes) (_location : String) :
    StubOutcome Unit :=
  StubOutcome.panics

/-- Api::set_torrent_name (lib.rs 533-539): the body is todo, which panics
unconditionally for every input. -/
def Api.set_torrent_name (_api : Api) (_hash _aName : String) : StubOutcome Unit :=
  StubOutcome.panics

/-- Api::set_torrent_category (lib.rs 541-547): the body is todo, which panics
unconditionally for every input. -/
def Api.set_torrent_category (_api : Api) (_hashes : Hashes) (_category : String) :
    StubOutcome Unit :=
  StubOutcome.panics

/-- Api::get_categories (lib.rs 549-551): the body is todo, which panics
unconditionally for every input. -/
def Api.get_categories (_api : Api) : StubOutcome (List (String × Category)) :=
  StubOutcome.panics

/-- Api::add_category (lib.rs 553-559): the body is todo, which panics
unconditionally for every input. -/
def Api.add_category (_api : Api) (_category _savePath : String) : StubOutcome Unit :=
  StubOutcome.panics

/-- Api::edit_category (lib.rs 561-567): the body is todo, which panics
unconditionally for every input. -/
def Api.edit_category (_api : Api) (_category _savePath : String) : StubOutcome Unit :=
  StubOutcome.panics

/-- Api::remove_categories (lib.rs 569-574): the body is todo, which panics
unconditionally for every input. -/
def Api.remove_categories (_api : Api) (_categories : List String) : StubOutcome Unit :=
  StubOutcome.panics

/-- Api::add_torrent_tags (lib.rs 576-582): the body is todo, which panics
unconditionally for every input. -/
def Api.add_torrent_tags (_api : Api) (_hashes : Hashes) (_tags : List String) :
    StubOutcome Unit :=
  StubOutcome.panics

/-- Api::remove_torrent_tags (lib.rs 584-590): the body is todo, which panics
unconditionally for every input. -/
def Api.remove_torrent_tags (_api : Api) (_hashes : Hashes)
    (_tags : Option (List String)) : StubOutcome Unit :=
  StubOutcome.panics

/-- Api::get_all_tags (lib.rs 592-594): the body is todo, which panics
unconditionally for every input. -/
def Api.get_all_tags (_api : Api) : StubOutcome (List String) :=
  StubOutcome.panics

/-- Api::create_tags (lib.rs 596-598): the body is todo, which panics
unconditionally for every input. -/
def Api.create_tags (_api : Api) (_tags : List String) : StubOutcome Unit :=
  StubOutcome.panics

/-- Api::delete_tags (lib.rs 600-602): the body is todo, which panics
unconditionally for every input. -/
def Api.delete_tags (_api : Api) (_tags : List String) : StubOutcome Unit :=
  StubOutcome.panics

/-- Api::set_auto_management (lib.rs 604-610): the body is todo, which panics
unconditionally for every input. -/
def Api.set_auto_management (_api : Api) (_hashes : Hashes) (_enable : Bool) :
    StubOutcome Unit :=
  StubOutcome.panics

/-- Api::toggle_torrent_sequential_download (lib.rs 612-617): the body is
todo, which panics unconditionally for every input. -/
def Api.toggle_torrent_sequential_download (_api : Api) (_hashes : Hashes) :
    StubOutcome Unit :=
  StubOutcome.panics

/-- Api::toggle_first_last_piece_priority (lib.rs 619-624): the body is todo,
which panics unconditionally for every input. -/
def Api.toggle_first_last_piece_priority (_api : Api) (_hashes : Hashes) :
    StubOutcome Unit :=
  StubOutcome.panics

/-- Api::set_force_start (lib.rs 626-632): the body is todo, which panics
unconditionally for every input. -/
def Api.set_force_start (_api : Api) (_hashes : Hashes) (_value : Bool) :
    StubOutcome Unit :=
  StubOutcome.panics

/-- Api::set_super_seeding (lib.rs 634-640): the body is todo, which panics
unconditionally for every input. -/
def Api.set_super_seeding (_api : Api) (_hashes : Hashes) (_value : Bool) :
    StubOutcome Unit :=
  StubOutcome.panics

/-- Api::rename_file (lib.rs 642-649): the body is todo, which panics
unconditionally for every input. -/
def Api.rename_file (_api : Api) (_hash _oldPath _newPath : String) :
    StubOutcome Unit :=
  StubOutcome.panics

/-- Api::rename_folder (lib.rs 651-658): the body is todo, which panics
unconditionally for every input. -/
def Api.rename_folder (_api : Api) (_hash _oldPath _newPath : String) :
    StubOutcome Unit :=
  StubOutcome.panics

/-- One operation of this layer against a client: an explicit login attempt, a
generic endpoint call through the request pipeline (covering every
implemented endpoint, with its method, path, query, override table, and the
two network-exchange outcomes), or a logout. -/
inductive Op
  | login (net : Net)
  | call (method : Method) (path : String) (query : List (String × String))
      (table : Nat → Option Error) (lNet cNet : Net)
  | logout (lNet cNet : Net)

/-- State reached after one operation. -/
def Api.step (api : Api) (op : Op) : Api :=
  match op with
  | Op.login net => (api.login net).state
  | Op.call m p q t l c => (Api.request api m p q t l c).state
  | Op.logout l c => (Api.logout api l c).state

/-- State reached after a sequence of operations. -/
def Api.runOps (api : Api) : List Op → Api
  | [] => api
  | op :: ops => Api.runOps (api.step op) ops

theorem Api.login_of_some (api : Api) (net : Net) (c : String)
    (h : api.cookie = some c) :
    api.login net = { state := api, sent := none, result := Except.ok () } := by
  unfold Api.login
  rw [h]

theorem Api.login_ok_cookie (api : Api) (net : Net)
    (h : (api.login net).result = Except.ok ()) :
    ((api.login net).state.cookie).isSome := by
  cases hc : api.cookie with
  | some c => simp [Api.login, hc]
  | none =>
    cases net with
    | fail s => simp [Api.login, hc] at h
    | ok r =>
      cases hms : mapStatus loginStatusTable r.status with
      | some e => simp [Api.login, hc, hms] at h
      | none =>
        cases hec : extractCookie r with
        | error e => simp [Api.login, hc, hms, hec] at h
        | ok c => simp [Api.login, hc, hms, hec, onceSet]

theorem Api.login_error_state (api : Api) (net : Net) (e : Error)
    (h : (api.login net).result = Except.error e) :
    (api.login net).state = api ∧ api.cookie = none := by
  cases hc : api.cookie with
  | some c => simp [Api.login, hc] at h
  | none =>
    refine ⟨?_, rfl⟩
    cases net with
    | fail s => simp [Api.login, hc]
    | ok r =>
      cases hms : mapStatus loginStatusTable r.status with
      | some e2 => simp [Api.login, hc, hms]
      | none =>
        cases hec : extractCookie r with
        | error e2 => simp [Api.login, hc, hms, hec]
        | ok c => simp [Api.login, hc, hms, hec] at h

theorem Api.login_sends_of_none (api : Api) (net : Net) (h : api.cookie = none) :
    ((api.login net).sent).isSome := by
  cases net with
  | fail s => simp [Api.login, h]
  | ok r =>
    cases hms : mapStatus loginStatusTable r.status with
    | some e => simp [Api.login, h, hms]
    | none =>
      cases hec : extractCookie r with
      | error e => simp [Api.login, h, hms, hec]
      | ok c => simp [Api.login, h, hms, hec]

theorem Api.request_of_some (api : Api) (m : Method) (p : String)
    (q : List (String × String)) (table : Nat → Option Error) (lNet cNet : Net)
    (ck : String) (h : api.cookie = some ck) :
    (Api.request api m p q table lNet cNet).loginSent = none ∧
    (Api.request api m p q table lNet cNet).sent
      = some { method := m, path := p, query := q, cookie := some ck } ∧
    (Api.request api m p q table lNet cNet).state = api := by
  cases cNet with
  | fail s => simp [Api.request, Api.login_of_some api lNet ck h, h]
  | ok r =>
    cases hcl : classify table defaultStatusTable r.status with
    | some e => simp [Api.request, Api.login_of_some api lNet ck h, h, hcl]
    | none => simp [Api.request, Api.login_of_some api lNet ck h, h, hcl]

theorem Api.step_cookie_of_some (api : Api) (op : Op) (c : String)
    (h : api.cookie = some c) : (api.step op).cookie = some c := by
  cases op with
  | login net =>
    simp only [Api.step, Api.login_of_some api net c h]
    exact h
  | call m p q t l cn =>
    simp only [Api.step, (Api.request_of_some api m p q t l cn c h).2.2]
    exact h
  | logout l cn =>
    simp only [Api.step, Api.logout,
      (Api.request_of_some api Method.get "auth/logout" [] noOverride l cn c h).2.2]
    exact h

theorem Api.runOps_cookie_of_some (api : Api) (ops : List Op) (c : String)
    (h : api.cookie = some c) : (api.runOps ops).cookie = some c := by
  induction ops generalizing api with
  | nil => simpa [Api.runOps] using h
  | cons op ops ih =>
    rw [Api.runOps]
    exact ih _ (Api.step_cookie_of_some api op c h)

/-- C1: the cached session token is a single-assignment cell — once the cookie
holds a value, whether installed by the first successful login or pre-supplied
at construction, it holds that same value after every sequence of operations
of this layer (login attempts, endpoint calls and logout included); a later
set attempt on the set-once cell is silently discarded; and logout in
particular never clears, replaces or invalidates the cached value. -/
theorem cookie_cell_single_assignment (api : Api) (ops : List Op) (c v : String)
    (lNet cNet : Net) (h : api.cookie = some c) :
    (api.runOps ops).cookie = some c ∧
    onceSet (some c) v = some c ∧
    (api.logout lNet cNet).state.cookie = some c := by
  refine ⟨Api.runOps_cookie_of_some api ops c h, rfl, ?_⟩
  simp only [Api.logout,
    (Api.request_of_some api Method.get "auth/logout" [] noOverride lNet cNet c h).2.2]
  exact h

/-- Witness for C1 at a concrete client: a pre-supplied cookie survives a
logout followed by a login attempt, and a second set attempt is discarded. -/
theorem cookie_cell_single_assignment_witness :
    ((Api.new_with_cookie ⟨"http://localhost:8080/", false⟩ "SID=abc").runOps
        [Op.logout (Net.ok ⟨200, none, ""⟩) (Net.ok ⟨200, none, ""⟩),
         Op.login (Net.ok ⟨200, some "SID=other", ""⟩)]).cookie = some "SID=abc" ∧
    onceSet (some "SID=abc") "SID=other" = some "SID=abc" ∧
    ((Api.new_with_cookie ⟨"http://localhost:8080/", false⟩ "SID=abc").logout
        (Net.ok ⟨200, none, ""⟩) (Net.ok ⟨200, none, ""⟩)).state.cookie
      = some "SID=abc" :=
  cookie_cell_single_assignment _ _ "SID=abc" "SID=other"
    (Net.ok ⟨200, none, ""⟩) (Net.ok ⟨200, none, ""⟩) rfl

/-- C4: a failed login attempt leaves the client state unchanged — the cookie
cell stays empty, the very next login attempt on the resulting state performs
the login exchange again from scratch, and a call whose login step fails fails
as a whole with exactly the login error. -/
theorem failed_login_no_poison (api : Api) (net net2 cNet : Net) (e : Error)
    (m : Method) (p : String) (q : List (String × String))
    (table : Nat → Option Error)
    (h : (api.login net).result = Except.error e) :
    (api.login net).state = api ∧
    api.cookie = none ∧
    (((api.login net).state.login net2).sent).isSome ∧
    (Api.request api m p q table net cNet).result = some (Except.error e) := by
  obtain ⟨hst, hnone⟩ := Api.login_error_state api net e h
  refine ⟨hst, hnone, ?_, ?_⟩
  · rw [hst]
    exact Api.login_sends_of_none api net2 hnone
  · simp [Api.request, h]

/-- Witness for C4 at a concrete client whose login exchange fails at the
transport level. -/
theorem failed_login_no_poison_witness :
    ((Api.new ⟨"http://localhost:8080/", false⟩ ⟨"admin", "pass"⟩).login
        (Net.fail "connection refused")).state
      = Api.new ⟨"http://localhost:8080/", false⟩ ⟨"admin", "pass"⟩ ∧
    (Api.new ⟨"http://localhost:8080/", false⟩ ⟨"admin", "pass"⟩).cookie = none ∧
    ((((Api.new ⟨"http://localhost:8080/", false⟩ ⟨"admin", "pass"⟩).login
        (Net.fail "connection refused")).state.login
        (Net.fail "connection refused")).sent).isSome ∧
    (Api.request (Api.new ⟨"http://localhost:8080/", false⟩ ⟨"admin", "pass"⟩)
        Method.get "app/version" [] noOverride (Net.fail "connection refused")
        (Net.ok ⟨200, none, ""⟩)).result
      = some (Except.error (Error.HttpError "connection refused")) :=
  failed_login_no_poison _ (Net.fail "connection refused") (Net.fail "connection refused")
    (Net.ok ⟨200, none, ""⟩) (Error.HttpError "connection refused")
    Method.get "app/version" [] noOverride rfl

/-- C5: a client constructed with a pre-supplied session token never issues a
login request — after any sequence of operations the cookie still holds the
supplied token, and any further call through the pipeline dispatches no login
exchange and attaches the supplied cookie directly to the target request. -/
theorem presupplied_cookie_skips_login (endpoint : Url) (ck : String)
    (ops : List Op) (m : Method) (p : String) (q : List (String × String))
    (table : Nat → Option Error) (lNet cNet : Net) :
    ((Api.new_with_cookie endpoint ck).runOps ops).cookie = some ck ∧
    (Api.request ((Api.new_with_cookie endpoint ck).runOps ops) m p q table
        lNet cNet).loginSent = none ∧
    (Api.request ((Api.new_with_cookie endpoint ck).runOps ops) m p q table
        lNet cNet).sent
      = some { method := m, path := p, query := q, cookie := some ck } := by
  have hck : ((Api.new_with_cookie endpoint ck).runOps ops).cookie = some ck :=
    Api.runOps_cookie_of_some _ ops ck rfl
  have hreq := Api.request_of_some ((Api.new_with_cookie endpoint ck).runOps ops)
    m p q table lNet cNet ck hck
  exact ⟨hck, hreq.1, hreq.2.1⟩

/-- C9: whenever login returns successfully the cookie cell is set, and
consequently the expect that reads the cookie right after login inside the
request pipeline can never panic, for any client state and any transport
outcomes. -/
theorem login_success_sets_cookie_no_panic (api : Api) (m : Method) (p : String)
    (q : List (String × String)) (table : Nat → Option Error) (lNet cNet : Net) :
    ((api.login lNet).result = Except.ok () →
      ((api.login lNet).state.cookie).isSome) ∧
    (Api.request api m p q table lNet cNet).result ≠ none := by
  refine ⟨Api.login_ok_cookie api lNet, ?_⟩
  cases hres : (api.login lNet).result with
  | error e => simp [Api.request, hres]
  | ok u =>
    have hsome := Api.login_ok_cookie api lNet (by cases u; exact hres)
    cases hcook : (api.login lNet).state.cookie with
    | none => rw [hcook] at hsome; simp at hsome
    | some c =>
      cases cNet with
      | fail s => simp [Api.request, hres, hcook]
      | ok r =>
        cases hcl : classify table defaultStatusTable r.status with
        | some e => simp [Api.request, hres, hcook, hcl]
        | none => simp [Api.request, hres, hcook, hcl]

/-- Witness for C9 at a concrete client whose login exchange succeeds. -/
theorem login_success_sets_cookie_no_panic_witness :
    (((Api.new ⟨"http://localhost:8080/", false⟩ ⟨"admin", "pass"⟩).login
        (Net.ok ⟨200, some "SID=x", "Ok."⟩)).state.cookie).isSome ∧
    (Api.request (Api.new ⟨"http://localhost:8080/", false⟩ ⟨"admin", "pass"⟩)
        Method.get "app/version" [] noOverride (Net.ok ⟨200, some "SID=x", "Ok."⟩)
        (Net.ok ⟨200, none, "v4.6.1"⟩)).result ≠ none := by
  have h := login_success_sets_cookie_no_panic
    (Api.new ⟨"http://localhost:8080/", false⟩ ⟨"admin", "pass"⟩)
    Method.get "app/version" [] noOverride (Net.ok ⟨200, some "SID=x", "Ok."⟩)
    (Net.ok ⟨200, none, "v4.6.1"⟩)
  exact ⟨h.1 rfl, h.2⟩

/-- C2: when classifying a response status, the call-specific override table
is consulted first and its mapping wins over the global default; in
particular, on the hash-scoped calls carrying the not-found override
(get_torrent_properties and get_torrent_peers), a 404 response classifies as
the torrent-not-found domain error rather than any default classification. -/
theorem override_table_wins (override fallback : Nat → Option Error)
    (status : Nat) (e : Error) (api : Api) (ck hash : String) (rid : Option Int)
    (lNet : Net) (r : Response)
    (hov : override status = some e) (hs : is2xx status = false)
    (hc : api.cookie = some ck) (hr : r.status = 404) :
    classify override fallback status = some e ∧
    (api.get_torrent_properties hash lNet (Net.ok r)).result
      = some (Except.error (Error.ApiError ApiError.TorrentNotFound)) ∧
    (api.get_torrent_peers hash rid lNet (Net.ok r)).result
      = some (Except.error (Error.ApiError ApiError.TorrentNotFound)) := by
  have h404 : classify TORRENT_NOT_FOUND defaultStatusTable 404
      = some (Error.ApiError ApiError.TorrentNotFound) := by decide
  refine ⟨?_, ?_, ?_⟩
  · simp [classify, mapStatus, overlay, hs, hov]
  · simp [Api.get_torrent_properties, Api.request,
      Api.login_of_some api lNet ck hc, hc, hr, h404]
  · simp [Api.get_torrent_peers, Api.request,
      Api.login_of_some api lNet ck hc, hc, hr, h404]

/-- Witness for C2 at concrete tables and a concrete 404 exchange. -/
theorem override_table_wins_witness :
    classify TORRENT_NOT_FOUND defaultStatusTable 404
      = some (Error.ApiError ApiError.TorrentNotFound) ∧
    ((Api.new_with_cookie ⟨"http://localhost:8080/", false⟩ "SID=abc").get_torrent_properties
        "deadbeef" (Net.ok ⟨200, none, ""⟩) (Net.ok ⟨404, none, ""⟩)).result
      = some (Except.error (Error.ApiError ApiError.TorrentNotFound)) ∧
    ((Api.new_with_cookie ⟨"http://localhost:8080/", false⟩ "SID=abc").get_torrent_peers
        "deadbeef" none (Net.ok ⟨200, none, ""⟩) (Net.ok ⟨404, none, ""⟩)).result
      = some (Except.error (Error.ApiError ApiError.TorrentNotFound)) :=
  override_table_wins TORRENT_NOT_FOUND defaultStatusTable 404
    (Error.ApiError ApiError.TorrentNotFound) _ "SID=abc" "deadbeef" none
    (Net.ok ⟨200, none, ""⟩) ⟨404, none, ""⟩ (by decide) (by decide) rfl rfl

/-- C3: a 403 response on the login request classifies as the IP-banned
domain error, while a 403 response on a non-login request (whose override
table, like every override in this codebase, leaves 403 unmapped) classifies
as the not-logged-in domain error. -/
theorem forbidden_status_classification (api api2 : Api)
    (table : Nat → Option Error) (r r2 : Response) (ck : String) (lNet : Net)
    (m : Method) (p : String) (q : List (String × String))
    (h1 : api.cookie = none) (h2 : r.status = 403) (h3 : table 403 = none)
    (h4 : api2.cookie = some ck) (h5 : r2.status = 403) :
    (api.login (Net.ok r)).result
      = Except.error (Error.ApiError ApiError.IpBanned) ∧
    (Api.request api2 m p q table lNet (Net.ok r2)).result
      = some (Except.error (Error.ApiError ApiError.NotLoggedIn)) := by
  have hA : mapStatus loginStatusTable 403
      = some (Error.ApiError ApiError.IpBanned) := by decide
  have hB : classify table defaultStatusTable 403
      = some (Error.ApiError ApiError.NotLoggedIn) := by
    unfold classify mapStatus overlay
    rw [h3]
    decide
  constructor
  · simp [Api.login, h1, h2, hA]
  · simp [Api.request, Api.login_of_some api2 lNet ck h4, h4, h5, hB]

/-- Witness for C3 at a concrete login 403 and a concrete non-login 403 on a
hash-scoped call's override table. -/
theorem forbidden_status_classification_witness :
    ((Api.new ⟨"http://localhost:8080/", false⟩ ⟨"admin", "pass"⟩).login
        (Net.ok ⟨403, none, ""⟩)).result
      = Except.error (Error.ApiError ApiError.IpBanned) ∧
    (Api.request (Api.new_with_cookie ⟨"http://localhost:8080/", false⟩ "SID=abc")
        Method.get "torrents/properties" [("hash", "deadbeef")] TORRENT_NOT_FOUND
        (Net.ok ⟨200, none, ""⟩) (Net.ok ⟨403, none, ""⟩)).result
      = some (Except.error (Error.ApiError ApiError.NotLoggedIn)) :=
  forbidden_status_classification _ _ TORRENT_NOT_FOUND ⟨403, none, ""⟩
    ⟨403, none, ""⟩ "SID=abc" (Net.ok ⟨200, none, ""⟩) Method.get
    "torrents/properties" [("hash", "deadbeef")] rfl rfl (by decide) rfl rfl

/-- C7: get_speed_limits_mode decodes the response body string 1 to true and
0 to false, and rejects every other body string (7 among them) with the
bad-response error — the decode never panics and never produces a transport,
unknown-status or domain error. -/
theorem speed_limits_mode_decode (api : Api) (ck : String) (lNet : Net)
    (r : Response) (hc : api.cookie = some ck) (h2 : is2xx r.status = true) :
    (api.get_speed_limits_mode lNet (Net.ok r)).2
      = some (decodeSpeedLimitsMode r.body) ∧
    decodeSpeedLimitsMode "1" = Except.ok true ∧
    decodeSpeedLimitsMode "0" = Except.ok false ∧
    decodeSpeedLimitsMode "7" = Except.error (Error.BadResponse
      "Received non-number response body on `transfer/speedLimitsMode`") ∧
    (∀ s : String, decodeSpeedLimitsMode s = Except.ok true ∨
      decodeSpeedLimitsMode s = Except.ok false ∨
      decodeSpeedLimitsMode s = Except.error (Error.BadResponse
        "Received non-number response body on `transfer/speedLimitsMode`")) := by
  have hcl : classify noOverride defaultStatusTable r.status = none := by
    simp [classify, mapStatus, h2]
  refine ⟨?_, rfl, rfl, rfl, ?_⟩
  · simp [Api.get_speed_limits_mode, Api.request,
      Api.login_of_some api lNet ck hc, hc, hcl, Except.bind]
  · intro s
    by_cases h0 : s = "0"
    · simp [decodeSpeedLimitsMode, h0]
    · by_cases h1 : s = "1"
      · simp [decodeSpeedLimitsMode, h0, h1]
      · simp [decodeSpeedLimitsMode, h0, h1]

/-- Witness for C7 at a concrete logged-in client and a concrete 200
response. -/
theorem speed_limits_mode_decode_witness :
    ((Api.new_with_cookie ⟨"http://localhost:8080/", false⟩ "SID=abc").get_speed_limits_mode
        (Net.ok ⟨200, none, ""⟩) (Net.ok ⟨200, none, "1"⟩)).2
      = some (decodeSpeedLimitsMode "1") ∧
    decodeSpeedLimitsMode "1" = Except.ok true ∧
    decodeSpeedLimitsMode "0" = Except.ok false ∧
    decodeSpeedLimitsMode "7" = Except.error (Error.BadResponse
      "Received non-number response body on `transfer/speedLimitsMode`") ∧
    (∀ s : String, decodeSpeedLimitsMode s = Except.ok true ∨
      decodeSpeedLimitsMode s = Except.ok false ∨
      decodeSpeedLimitsMode s = Except.error (Error.BadResponse
        "Received non-number response body on `transfer/speedLimitsMode`")) :=
  speed_limits_mode_decode _ "SID=abc" (Net.ok ⟨200, none, ""⟩)
    ⟨200, none, "1"⟩ rfl (by decide)

/-- C8: an absent optional scalar argument produces no corresponding query
key at all — the serialized queries of get_peer_logs without last_known_id,
sync and get_torrent_peers without rid, and get_torrent_contents without
indexes contain no trace of the field, rather than an empty or null value. -/
theorem absent_optional_omits_key (hash : String) :
    getPeerLogsQuery none = [] ∧
    syncQuery none = [] ∧
    torrentPeersQuery hash none = [("hash", hash)] ∧
    (torrentPeersQuery hash none).lookup "rid" = none ∧
    torrentContentsQuery hash none = [("hash", hash)] ∧
    (torrentContentsQuery hash none).lookup "indexes" = none :=
  ⟨rfl, rfl, rfl, rfl, rfl, rfl⟩

/-- C6 counterexample: a cannot-be-a-base endpoint URL (such as a mailto: URL,
which the url crate parses but rejects as a join base) is accepted by the
constructor without any error — construction merely stores it — and the join
then fails on each individual call: the per-call url computation panics (here,
the value none) for every built-in path. -/
theorem malformed_base_fails_per_call :
    Api.new ⟨"mailto:user@example.com", true⟩ ⟨"admin", "pass"⟩
      = { endpoint := ⟨"mailto:user@example.com", true⟩
          credential := ⟨"admin", "pass"⟩
          cookie := none } ∧
    (Api.new ⟨"mailto:user@example.com", true⟩ ⟨"admin", "pass"⟩).url
        "torrents/info" = none ∧
    (Api.new ⟨"mailto:user@example.com", true⟩ ⟨"admin", "pass"⟩).url
        "app/version" = none :=
  ⟨rfl, rfl, rfl⟩

/-- C6 (amended): joining the API base URL with the fixed version prefix and
any built-in relative path always succeeds for a base-capable (well-formed)
base, so the per-call join can never fail for such clients; construction
itself performs no validation and raises no error — it only stores the
endpoint — and a malformed base string is excluded before construction by the
Url type, while a base-incapable Url is accepted at construction and its join
failure surfaces as a panic on each individual call. -/
theorem url_join_total_for_wellformed_base (api : Api) (path : String)
    (ep : Url) (cred : Credential) (h : api.endpoint.cannotBeABase = false) :
    (api.url path).isSome ∧
    Api.new ep cred = { endpoint := ep, credential := cred, cookie := none } := by
  constructor
  · simp [Api.url, Url.join, h]
  · rfl

/-- Witness for the amended C6 at a concrete well-formed http base. -/
theorem url_join_total_for_wellformed_base_witness :
    ((Api.new ⟨"http://localhost:8080/", false⟩ ⟨"admin", "pass"⟩).url
        "torrents/info").isSome ∧
    Api.new ⟨"http://localhost:8080/", false⟩ ⟨"admin", "pass"⟩
      = { endpoint := ⟨"http://localhost:8080/", false⟩
          credential := ⟨"admin", "pass"⟩
          cookie := none } :=
  url_join_total_for_wellformed_base _ "torrents/info"
    ⟨"http://localhost:8080/", false⟩ ⟨"admin", "pass"⟩ rfl

/-- C10: every unimplemented endpoint method, from recheck_torrents through
rename_folder, panics unconditionally for every input — none of them builds a
request, dispatches anything, or returns an error value. -/
theorem stubbed_endpoints_panic (api : Api) (hashes : Hashes)
    (hash url1 loc aName category savePath oldPath newPath : String)
    (urls peers tags categories : List String) (indexes : List Int)
    (priority : Priority) (src : TorrentSource) (addArg : AddTorrentArg)
    (shArg : SetTorrentSharedLimitArg) (u1 u2 : Url) (limit : Nat) (b : Bool)
    (otags : Option (List String)) :
    api.recheck_torrents hashes = StubOutcome.panics ∧
    api.reannounce_torrents hashes = StubOutcome.panics ∧
    api.add_torrent src addArg = StubOutcome.panics ∧
    api.add_trackers hash urls = StubOutcome.panics ∧
    api.edit_trackers hash u1 u2 = StubOutcome.panics ∧
    api.remove_trackers hash url1 = StubOutcome.panics ∧
    api.add_peers hash peers = StubOutcome.panics ∧
    api.increase_priority hashes = StubOutcome.panics ∧
    api.decrease_priority hashes = StubOutcome.panics ∧
    api.maximal_priority hashes = StubOutcome.panics ∧
    api.minimal_priority hashes = StubOutcome.panics ∧
    api.set_file_priority hash indexes priority = StubOutcome.panics ∧
    api.get_torrent_download_limit hashes = StubOutcome.panics ∧
    api.set_torrent_download_limit hashes limit = StubOutcome.panics ∧
    api.set_torrent_shared_limit shArg = StubOutcome.panics ∧
    api.get_torrent_upload_limit hashes = StubOutcome.panics ∧
    api.set_torrent_upload_limit hashes limit = StubOutcome.panics ∧
    api.set_torrent_location hashes loc = StubOutcome.panics ∧
    api.set_torrent_name hash aName = StubOutcome.panics ∧
    api.set_torrent_category hashes category = StubOutcome.panics ∧
    api.get_categories = StubOutcome.panics ∧
    api.add_category category savePath = StubOutcome.panics ∧
    api.edit_category category savePath = StubOutcome.panics ∧
    api.remove_categories categories = StubOutcome.panics ∧
    api.add_torrent_tags hashes tags = StubOutcome.panics ∧
    api.remove_torrent_tags hashes otags = StubOutcome.panics ∧
    api.get_all_tags = StubOutcome.panics ∧
    api.create_tags tags = StubOutcome.panics ∧
    api.delete_tags tags = StubOutcome.panics ∧
    api.set_auto_management hashes b = StubOutcome.panics ∧
    api.toggle_torrent_sequential_download hashes = StubOutcome.panics ∧
    api.toggle_first_last_piece_priority hashes = StubOutcome.panics ∧
    api.set_force_start hashes b = StubOutcome.panics ∧
    api.set_super_seeding hashes b = StubOutcome.panics ∧
    api.rename_file hash oldPath newPath = StubOutcome.panics ∧
    api.rename_folder hash oldPath newPath = StubOutcome.panics :=
  ⟨rfl, rfl, rfl, rfl, rfl, rfl, rfl, rfl, rfl, rfl, rfl, rfl, rfl, rfl, rfl,
   rfl, rfl, rfl, rfl, rfl, rfl, rfl, rfl, rfl, rfl, rfl, rfl, rfl, rfl, rfl,
   rfl, rfl, rfl, rfl, rfl, rfl⟩
